import Mathlib

/-!
Verification of the twitter-bookmark-backup repository.

Shallow embedding of the runner (auth.py, backup.py, html_generator.py) and
the viewer (server.py). Each Python function is translated to an executable
Lean definition; filesystem state is passed explicitly as a list of existing
relative paths, the network is an oracle mapping a URL to the content type of
a successful response (or none for a failed request).
-/

/- ――――――――――――――――――――――――――――――――――――――――――――――――――――――――――――――――――――
   String primitives
   ―――――――――――――――――――――――――――――――――――――――――――――――――――――――――――――――――――― -/

/-- Python str.startswith, as structural recursion over the characters. -/
def strStartsWith (s pre : String) : Bool := pre.data.isPrefixOf s.data

/-- Python str.endswith, as structural recursion over the characters. -/
def strEndsWith (s post : String) : Bool := post.data.isSuffixOf s.data

/-- Python str.lower (ASCII range, which covers every string the code
lowers). -/
def strToLower (s : String) : String := String.mk (s.data.map Char.toLower)

/-- One fuel-measured step list for replacement, so the definition is
structurally recursive and computes inside the kernel. -/
def replaceFuel (pat repl : List Char) : Nat → List Char → List Char
  | 0, l => l
  | _ + 1, [] => []
  | fuel + 1, c :: rest =>
    if pat.isPrefixOf (c :: rest) then
      match pat with
      | [] => c :: replaceFuel pat repl fuel rest
      | _ :: ptail => repl ++ replaceFuel pat repl fuel (rest.drop ptail.length)
    else c :: replaceFuel pat repl fuel rest

/-- Python str.replace: replace every non-overlapping occurrence, scanning
left to right. -/
def strReplace (s pat repl : String) : String :=
  String.mk (replaceFuel pat.data repl.data s.data.length s.data)

/- ――――――――――――――――――――――――――――――――――――――――――――――――――――――――――――――――――――
   auth.py
   ―――――――――――――――――――――――――――――――――――――――――――――――――――――――――――――――――――― -/

/-- The persisted oauth2_token.json record. Only the three keys the code
reads are modelled; each is optional because the JSON may lack it. -/
structure TokenData where
  access_token : Option String
  refresh_token : Option String
  expires_at : Option Int
deriving DecidableEq

/-- TwitterAuth.is_token_expired (auth.py lines 52-60). `now` stands for
int(time.time()). The Python guard `if not expires_at` is falsy for both a
missing key and the integer 0, so both map to true here. The code then
computes current_time = now - 300 and returns current_time >= expires_at. -/
def is_token_expired (now : Int) (token_data : TokenData) : Bool :=
  match token_data.expires_at with
  | none => true
  | some expires_at =>
    if expires_at = 0 then true
    else
      let current_time := now - 300
      decide (current_time ≥ expires_at)

/-- Which of the three exits of TwitterAuth.get_oauth2_token (auth.py lines
87-148) is taken. -/
inductive TokenPath
  | usedExisting (token : String)
  | refreshed (token : String)
  | interactive
deriving DecidableEq

/-- Control flow of TwitterAuth.get_oauth2_token (auth.py lines 87-148).
`stored` is the parsed oauth2_token.json when the file exists, `refreshResult`
is the access_token of the refresh_oauth2_token call when that call succeeds
and its result contains an access_token (auth.py line 106), none otherwise.
The interactive authorization-code flow at the end is abstracted as the
`interactive` outcome. -/
def get_oauth2_token_path (now : Int) (stored : Option TokenData)
    (refreshResult : Option String) : TokenPath :=
  match stored with
  | none => .interactive
  | some token_data =>
    match token_data.access_token with
    | none => .interactive
    | some tok =>
      if is_token_expired now token_data = false then .usedExisting tok
      else
        match token_data.refresh_token with
        | none => .interactive
        | some _ =>
          match refreshResult with
          | some newTok => .refreshed newTok
          | none => .interactive

/- ――――――――――――――――――――――――――――――――――――――――――――――――――――――――――――――――――――
   backup.py : process_bookmarks_response, video variant selection
   ―――――――――――――――――――――――――――――――――――――――――――――――――――――――――――――――――――― -/

/-- One entry of a video media object's variant list. `bit_rate` and `url`
are optional because the code reads them with dict.get. -/
structure Variant where
  content_type : String
  bit_rate : Option Nat
  url : Option String
deriving DecidableEq

/-- The sort key used at backup.py line 87: x.get('bit_rate', 0). -/
def bitRateKey (v : Variant) : Nat := v.bit_rate.getD 0

/-- Predicate of the filter at backup.py lines 83-84:
v.get('content_type', '').startswith('video/'). -/
def isVideoContentType (v : Variant) : Bool := strStartsWith v.content_type "video/"

/-- Models `video_variants.sort(key=lambda x: x.get('bit_rate', 0),
reverse=True)` followed by `video_variants[0]` (backup.py lines 87-88): a
stable descending sort places at index 0 the first element of the list whose
key is maximal, which is what this recursion returns. -/
def bestVariant : List Variant → Option Variant
  | [] => none
  | v :: vs =>
    match bestVariant vs with
    | none => some v
    | some w => if bitRateKey w > bitRateKey v then some w else some v

/-- A media object from the response side table (backup.py lines 59, 75). -/
structure MediaObj where
  media_key : String
  mediaType : String
  url : Option String
  preview_image_url : Option String
  variants : List Variant
deriving DecidableEq

/-- The video branch of process_bookmarks_response (backup.py lines 78-98):
filter the variants to content types starting with video/, take the
highest-bit-rate one's url, and fall back to preview_image_url when the list
is empty or the selected url is missing or empty (`if not video_url`). -/
def select_video_url (media_obj : MediaObj) : Option String :=
  let video_variants := media_obj.variants.filter isVideoContentType
  let video_url : Option String :=
    match bestVariant video_variants with
    | some v => v.url
    | none => none
  match video_url with
  | some u => if u = "" then media_obj.preview_image_url else some u
  | none => media_obj.preview_image_url

/-- The non-video branch of process_bookmarks_response (backup.py line 104):
media_obj.url or media_obj.preview_image_url. -/
def select_static_url (media_obj : MediaObj) : Option String :=
  match media_obj.url with
  | some u => if u = "" then media_obj.preview_image_url else some u
  | none => media_obj.preview_image_url

/- ――――――――――――――――――――――――――――――――――――――――――――――――――――――――――――――――――――
   html_generator.py : the Jinja template of generate_html
   ―――――――――――――――――――――――――――――――――――――――――――――――――――――――――――――――――――― -/

/-- Delimiter that closes a Jinja tag in the template text: the statement
delimiter percent-brace or the expression delimiter brace-brace. -/
inductive JinjaDelim
  | stmtEnd
  | exprEnd
deriving DecidableEq

/-- Kind of a Jinja tag occurring in template_str. -/
inductive JinjaTagKind
  | exprTag
  | setTag
  | ifTag
  | elifTag
  | elseTag
  | endifTag
  | forTag
  | endforTag
deriving DecidableEq

/-- One Jinja tag of template_str: its kind and the delimiter that closes it
in the source text. Literal text between tags (including all CSS) contains no
Jinja delimiters and cannot affect template compilation, so it is not
carried. -/
structure JinjaTag where
  kind : JinjaTagKind
  close : JinjaDelim
deriving DecidableEq

/-- The sequence of Jinja tags of template_str in generate_html
(html_generator.py lines 165-326), in source order.  Note two slips in the
source: the tag for safe_username (line 273) is a set statement closed by the
expression delimiter, and the else at line 285 together with the endif at
line 291 has no matching if tag. -/
def templateTags : List JinjaTag := [
  ⟨.exprTag, .exprEnd⟩ ,      -- line 171: tweet.id in the title
  ⟨.setTag, .stmtEnd⟩ ,       -- line 270: set author
  ⟨.setTag, .stmtEnd⟩ ,       -- line 271: set username
  ⟨.setTag, .stmtEnd⟩ ,       -- line 272: set display_name
  ⟨.setTag, .exprEnd⟩ ,       -- line 273: set safe_username, closed by the wrong delimiter
  ⟨.setTag, .stmtEnd⟩ ,       -- line 274: set avatar_src
  ⟨.exprTag, .exprEnd⟩ ,      -- line 276: avatar_src
  ⟨.exprTag, .exprEnd⟩ ,      -- line 276: display_name first upper, inside onerror
  ⟨.exprTag, .exprEnd⟩ ,      -- line 278: username in the href
  ⟨.exprTag, .exprEnd⟩ ,      -- line 279: display_name
  ⟨.exprTag, .exprEnd⟩ ,      -- line 281: username in the handle
  ⟨.exprTag, .exprEnd⟩ ,      -- line 283: tweet.created_at
  ⟨.elseTag, .stmtEnd⟩ ,      -- line 285: else with no matching if
  ⟨.exprTag, .exprEnd⟩ ,      -- line 289: tweet.created_at
  ⟨.endifTag, .stmtEnd⟩ ,     -- line 291: endif with no matching if
  ⟨.exprTag, .exprEnd⟩ ,      -- line 295: tweet.text passed through safe
  ⟨.ifTag, .stmtEnd⟩ ,        -- line 298: if tweet.media
  ⟨.forTag, .stmtEnd⟩ ,       -- line 300: for media in tweet.media
  ⟨.ifTag, .stmtEnd⟩ ,        -- line 301: if media.type is photo
  ⟨.exprTag, .exprEnd⟩ ,      -- line 302: media.url
  ⟨.elifTag, .stmtEnd⟩ ,      -- line 303: elif media.type is video
  ⟨.exprTag, .exprEnd⟩ ,      -- line 305: media.url
  ⟨.endifTag, .stmtEnd⟩ ,     -- line 308
  ⟨.endforTag, .stmtEnd⟩ ,    -- line 309
  ⟨.endifTag, .stmtEnd⟩ ,     -- line 311
  ⟨.exprTag, .exprEnd⟩ ,      -- line 314: like_count
  ⟨.exprTag, .exprEnd⟩ ,      -- line 315: retweet_count
  ⟨.exprTag, .exprEnd⟩ ,      -- line 316: reply_count
  ⟨.exprTag, .exprEnd⟩ ,      -- line 321: backup_date
  ⟨.exprTag, .exprEnd⟩ ,      -- line 322: author username in the link
  ⟨.exprTag, .exprEnd⟩ ]      -- line 322: tweet.id in the link

/-- Errors jinja2 raises while compiling a template; Template(template_str)
compiles at construction time, before any rendering. -/
inductive TemplateError
  | badStmtDelim
  | badExprDelim
  | orphanElse
  | orphanEndif
  | orphanEndfor
  | unclosedBlock
deriving DecidableEq

/-- Block kinds open on the parser stack. -/
inductive JinjaBlock
  | ifBlock
  | forBlock
deriving DecidableEq

/-- The part of jinja2 template compilation that decides success or failure
for template_str: every tag must be closed by the delimiter of its kind, and
if, elif, else, endif, for, endfor must nest properly. -/
def checkTags : List JinjaTag → List JinjaBlock → Except TemplateError Unit
  | [], [] => .ok ()
  | [], _ :: _ => .error .unclosedBlock
  | t :: rest, stack =>
    match t.kind, t.close with
    | .exprTag, .exprEnd => checkTags rest stack
    | .exprTag, .stmtEnd => .error .badExprDelim
    | _, .exprEnd => .error .badStmtDelim
    | .setTag, .stmtEnd => checkTags rest stack
    | .ifTag, .stmtEnd => checkTags rest (.ifBlock :: stack)
    | .elifTag, .stmtEnd =>
      match stack with
      | .ifBlock :: _ => checkTags rest stack
      | _ => .error .orphanElse
    | .elseTag, .stmtEnd =>
      match stack with
      | .ifBlock :: _ => checkTags rest stack
      | _ => .error .orphanElse
    | .endifTag, .stmtEnd =>
      match stack with
      | .ifBlock :: s => checkTags rest s
      | _ => .error .orphanEndif
    | .endforTag, .stmtEnd =>
      match stack with
      | .forBlock :: s => checkTags rest s
      | _ => .error .orphanEndfor
    | .forTag, .stmtEnd => checkTags rest (.forBlock :: stack)

/- ――――――――――――――――――――――――――――――――――――――――――――――――――――――――――――――――――――
   The canonical bookmark record and the filesystem and network model
   ―――――――――――――――――――――――――――――――――――――――――――――――――――――――――――――――――――― -/

/-- An author record as produced by process_bookmarks_response when the user
side table has an entry; the falsy empty dict maps to none at the Tweet
level. -/
structure Author where
  username : String
  name : String
  profile_image_url : Option String
deriving DecidableEq

/-- One entry of a bookmark's media list (backup.py lines 94-105). -/
structure MediaItem where
  media_key : String
  mediaType : String
  url : String
deriving DecidableEq

/-- A canonical bookmark record as consumed by HTMLGenerator.save_bookmark.
An absent media key in the dict corresponds to the empty list, which the
iteration treats identically. -/
structure Tweet where
  id : String
  text : String
  created_at : String
  author : Option Author
  media : List MediaItem
deriving DecidableEq

/-- The backup directory tree: the list of existing file paths relative to
backup_dir. -/
abbrev FS := List String

/-- Externally observable effects of save_bookmark: the two kinds of
requests.get calls (attempted downloads, successful or not) and file
writes. -/
inductive Act
  | avatarDownload (url : String)
  | mediaDownload (url : String)
  | fileWrite (path : String)
deriving DecidableEq

/-- The network oracle: for a URL, the lowered content-type header of a
successful response, or none when requests.get raises. Fixed across runs. -/
abbrev Net := String → Option String

/-- File existence under backup_dir. -/
def fsHas (fs : FS) (path : String) : Bool := fs.contains path

/-- HTMLGenerator._html_file_exists (html_generator.py lines 28-31). -/
def html_file_exists (fs : FS) (tweet_id : String) : Bool :=
  fsHas fs ("bookmark_" ++ tweet_id ++ ".html")

/-- The username sanitization of _get_avatar_path (html_generator.py line
47): lower-case, then map every non-alphanumeric character to an
underscore. -/
def safe_username_of (username : String) : String :=
  String.mk ((strToLower username).data.map (fun c => if c.isAlphanum then c else '_'))

/-- HTMLGenerator._get_avatar_path (html_generator.py lines 33-72). Returns
the avatar filename on success together with the updated tree and the
performed actions; download failures are caught inside and yield none. -/
def get_avatar_path (net : Net) (username : String) (profile_image_url : String)
    (fs : FS) : Option String × FS × List Act :=
  if profile_image_url = "" then (none, fs, [])
  else
    let avatar_filename := safe_username_of username ++ ".jpg"
    let avatar_path := "avatars/" ++ avatar_filename
    if fsHas fs avatar_path then (some avatar_filename, fs, [])
    else
      match net profile_image_url with
      | some _ =>
        (some avatar_filename, avatar_path :: fs,
          [.avatarDownload profile_image_url, .fileWrite avatar_path])
      | none => (none, fs, [.avatarDownload profile_image_url])

/-- The media path media/<tweet_id>_<media_key><ext> used by the existence
check and the finder. -/
def media_path (tweet_id media_key ext : String) : String :=
  "media/" ++ tweet_id ++ "_" ++ media_key ++ ext

/-- The extension list of _media_file_exists and _find_existing_media_file
(html_generator.py lines 76-85): for video only .mp4, for photo only .jpg;
the six-extension list is reached only when the type is neither. -/
def extensions_to_check (media_type : String) : List String :=
  let extension :=
    if media_type = "video" then ".mp4"
    else if media_type = "photo" then ".jpg"
    else ""
  if extension ≠ "" then [extension]
  else [".jpg", ".png", ".gif", ".mp4", ".webm", ".mov"]

/-- HTMLGenerator._media_file_exists (html_generator.py lines 74-91). -/
def media_file_exists (fs : FS) (tweet_id media_key media_type : String) : Bool :=
  (extensions_to_check media_type).any
    (fun ext => fsHas fs (media_path tweet_id media_key ext))

/-- HTMLGenerator._find_existing_media_file (html_generator.py lines
93-110). -/
def find_existing_media_file (fs : FS) (tweet_id media_key media_type : String) :
    Option String :=
  ((extensions_to_check media_type).find?
    (fun ext => fsHas fs (media_path tweet_id media_key ext))).map
    (media_path tweet_id media_key)

/-- Substring containment over character lists, modelling the Python `in`
operator on strings. -/
def containsSeq (pat : List Char) : List Char → Bool
  | [] => pat.isEmpty
  | c :: rest => pat.isPrefixOf (c :: rest) || containsSeq pat rest

/-- Python substring containment: pat in s. -/
def strContains (s pat : String) : Bool := containsSeq pat.data s.data

/-- HTMLGenerator.download_media (html_generator.py lines 112-160). On
network failure the exception is caught inside and none is returned with no
write; on success the extension is sniffed from the lowered content type,
appended to the filename when absent, the file is written under media/, and
the path relative to backup_dir is returned. -/
def download_media (net : Net) (media_url filename media_type : String)
    (fs : FS) : Option String × FS × List Act :=
  match net media_url with
  | none => (none, fs, [.mediaDownload media_url])
  | some ct =>
    let content_type := strToLower ct
    let extension :=
      if strContains content_type "video/" then
        if strContains content_type "mp4" then ".mp4"
        else if strContains content_type "webm" then ".webm"
        else if strContains content_type "quicktime" then ".mov"
        else ".mp4"
      else if strContains content_type "image/" then
        if strContains content_type "jpeg" || strContains content_type "jpg" then ".jpg"
        else if strContains content_type "png" then ".png"
        else if strContains content_type "gif" then ".gif"
        else ".jpg"
      else if media_type = "video" then ".mp4"
      else if media_type = "photo" then ".jpg"
      else ""
    let filename :=
      if extension ≠ "" && !(strEndsWith filename extension) then filename ++ extension
      else filename
    let mpath := "media/" ++ filename
    (some mpath, mpath :: fs, [.mediaDownload media_url, .fileWrite mpath])

/-- The media loop of save_bookmark (html_generator.py lines 364-382):
resolve each photo or video item against the local tree, downloading when no
local file is found, and rewrite the item's url in place. -/
def resolveMedia (net : Net) (tweet_id : String) :
    List MediaItem → FS → List MediaItem × FS × List Act
  | [], fs => ([], fs, [])
  | m :: rest, fs =>
    let step : MediaItem × FS × List Act :=
      if m.mediaType = "photo" || m.mediaType = "video" then
        if media_file_exists fs tweet_id m.media_key m.mediaType then
          match find_existing_media_file fs tweet_id m.media_key m.mediaType with
          | some p => ({ m with url := p }, fs, [])
          | none => (m, fs, [])
        else
          match download_media net m.url (tweet_id ++ "_" ++ m.media_key)
              m.mediaType fs with
          | (some p, fs2, acts) => ({ m with url := p }, fs2, acts)
          | (none, fs2, acts) => (m, fs2, acts)
      else (m, fs, [])
    let (m2, fs2, acts) := step
    let (rest2, fs3, acts2) := resolveMedia net tweet_id rest fs2
    (m2 :: rest2, fs3, acts ++ acts2)

/-- HTMLGenerator.generate_html (html_generator.py lines 162-332):
Template(template_str) compiles the template at construction; because
checkTags fails on templateTags, no rendering ever happens, so the rendered
string in the ok branch is irrelevant to every theorem below and is left
empty. -/
def generate_html (tweet : Tweet) : Except TemplateError String :=
  match checkTags templateTags [] with
  | .error e => .error e
  | .ok _ =>
    let _ := tweet
    .ok ""

/-- The body of the try block of save_bookmark (html_generator.py lines
336-393). An ok value is a normal return (stored, tree, actions); an error
is an exception escaping the try body, carrying the tree and actions at the
point it was raised. -/
def save_bookmark_run (net : Net) (tweet : Tweet) (fs : FS) :
    Except (FS × List Act) (Bool × FS × List Act) :=
  if html_file_exists fs tweet.id then .ok (false, fs, [])
  else
    let avatarStep : FS × List Act :=
      match tweet.author with
      | none => (fs, [])
      | some author =>
        match author.profile_image_url with
        | none => (fs, [])
        | some piu =>
          if piu = "" then (fs, [])
          else
            let (_, fs1, acts) := get_avatar_path net author.username piu fs
            (fs1, acts)
    let (fs1, acts1) := avatarStep
    let (media2, fs2, acts2) := resolveMedia net tweet.id tweet.media fs1
    match generate_html { tweet with media := media2 } with
    | .error _ => .error (fs2, acts1 ++ acts2)
    | .ok _ =>
      let html_path := "bookmark_" ++ tweet.id ++ ".html"
      .ok (true, html_path :: fs2, acts1 ++ acts2 ++ [.fileWrite html_path])

/-- HTMLGenerator.save_bookmark (html_generator.py lines 334-397): the
try-except wrapper around save_bookmark_run; any exception is caught and
reported as stored=false. -/
def save_bookmark (net : Net) (tweet : Tweet) (fs : FS) :
    Bool × FS × List Act :=
  match save_bookmark_run net tweet fs with
  | .ok r => r
  | .error (fs2, acts) => (false, fs2, acts)

/-- The loop of TwitterBookmarkBackup.backup_all_bookmarks (backup.py lines
158-162): sequentially save every bookmark, counting the stored ones. -/
def backupLoop (net : Net) : List Tweet → FS → Nat × FS × List Act
  | [], fs => (0, fs, [])
  | t :: rest, fs =>
    let (stored, fs1, acts) := save_bookmark net t fs
    let (n, fs2, acts2) := backupLoop net rest fs1
    ((if stored then 1 else 0) + n, fs2, acts ++ acts2)

/-- Result of one orchestrator run. -/
structure BackupResult where
  saved_count : Nat
  fs : FS
  actions : List Act
  did_fetch : Bool
  processed : List Tweet
deriving DecidableEq

/-- TwitterBookmarkBackup.backup_all_bookmarks (backup.py lines 151-163).
`override` is the optional bookmarks argument; `fetchResult` is what
self.get_bookmarks() would return. The guard `if not bookmarks` is falsy both
for None and for an empty list, so both trigger the fetch. -/
def backup_all_bookmarks (net : Net) (override : Option (List Tweet))
    (fetchResult : List Tweet) (fs : FS) : BackupResult :=
  let fetchStep : List Tweet × Bool :=
    match override with
    | none => (fetchResult, true)
    | some [] => (fetchResult, true)
    | some bs => (bs, false)
  let (bookmarks, did_fetch) := fetchStep
  let (n, fs2, acts) := backupLoop net bookmarks fs
  ⟨n, fs2, acts, did_fetch, bookmarks⟩

/- ――――――――――――――――――――――――――――――――――――――――――――――――――――――――――――――――――――
   viewer/server.py : get_bookmark_files and the list endpoint
   ―――――――――――――――――――――――――――――――――――――――――――――――――――――――――――――――――――― -/

/-- Lexicographic comparison of character lists by code point: exactly how
CPython compares two str values. -/
def lexLe : List Char → List Char → Bool
  | [], _ => true
  | _ :: _, [] => false
  | a :: as, b :: bs =>
    if a.toNat < b.toNat then true
    else if b.toNat < a.toNat then false
    else lexLe as bs

/-- The string order used by list.sort() in get_bookmark_files. -/
def pyStrLe (a b : String) : Prop := lexLe a.data b.data = true

instance : DecidableRel pyStrLe :=
  fun a b => instDecidableEqBool (lexLe a.data b.data) true

/-- get_bookmark_files (server.py lines 26-39): the glob bookmark_*.html over
the regular files of the bookmark directory, sorted ascending then reversed.
`disk` is the list of file names in the directory. -/
def get_bookmark_files (disk : List String) : List String :=
  let bookmark_files :=
    disk.filter (fun f => strStartsWith f "bookmark_" && strEndsWith f ".html")
  (List.insertionSort pyStrLe bookmark_files).reverse


/-- The id parsed from a bookmark filename at server.py line 97:
filename.replace('bookmark_', '').replace('.html', ''). -/
def tweet_id_of_filename (filename : String) : String :=
  strReplace (strReplace filename "bookmark_" "") ".html" ""

/-- The /api/bookmarks endpoint, get_bookmarks (server.py lines 67-116),
returning (items, has_more, total). Items carry the filename and the parsed
id; content extraction is modelled separately by extract_tweet_content. The
early return for an empty file list and the slice arithmetic follow the
source; per_page is the constant 10. -/
def get_bookmarks_api (disk : List String) (page : Nat) :
    List (String × String) × Bool × Nat :=
  let per_page := 10
  let bookmark_files := get_bookmark_files disk
  let total_bookmarks := bookmark_files.length
  if bookmark_files = [] then ([], false, 0)
  else
    let start_idx := (page - 1) * per_page
    let end_idx := start_idx + per_page
    let pageFiles := (bookmark_files.drop start_idx).take per_page
    let items := pageFiles.map (fun fn => (fn, tweet_id_of_filename fn))
    (items, decide (end_idx < total_bookmarks), total_bookmarks)

/- ――――――――――――――――――――――――――――――――――――――――――――――――――――――――――――――――――――
   viewer/server.py : extract_tweet_content
   ―――――――――――――――――――――――――――――――――――――――――――――――――――――――――――――――――――― -/

/-- The literal tag opening the tweet container in the regex of
extract_tweet_content (server.py line 45). -/
def openTweetTag : List Char := "<div class=\"tweet\">".data

/-- The closing div literal of the same regex. -/
def closeDivTag : List Char := "</div>".data

/-- The backup-info container literal of the same regex. -/
def backupInfoTag : List Char := "<div class=\"backup-info\">".data

/-- The body opening literal of the fallback regex (server.py line 51). -/
def openBodyTag : List Char := "<body>".data

/-- The body closing literal of the fallback regex. -/
def closeBodyTag : List Char := "</body>".data

/-- The terminator of the lazy group of the tweet regex: a closing div,
then a whitespace run, then the backup-info tag. Returns the whitespace run
and the text after the backup-info tag. Because the backup-info tag starts
with a non-whitespace character, the regex engine's backtracking over the
greedy whitespace star matches exactly when the tag follows the maximal
whitespace run. -/
def tweetTerm (l : List Char) : Option (List Char × List Char) :=
  if closeDivTag.isPrefixOf l then
    let r := l.drop closeDivTag.length
    let ws := r.takeWhile Char.isWhitespace
    let r2 := r.dropWhile Char.isWhitespace
    if backupInfoTag.isPrefixOf r2 then some (ws, r2.drop backupInfoTag.length)
    else none
  else none

/-- The terminator of the lazy group of the body regex: the closing body
tag. The first component (the whitespace run) is always empty. -/
def bodyTerm (l : List Char) : Option (List Char × List Char) :=
  if closeBodyTag.isPrefixOf l then some ([], l.drop closeBodyTag.length)
  else none

/-- The lazy group: the shortest leading segment of the text after which the
terminator matches, together with the terminator's components. -/
def grabGroup (term : List Char → Option (List Char × List Char)) :
    List Char → Option (List Char × List Char × List Char)
  | [] =>
    match term [] with
    | some (ws, post) => some ([], ws, post)
    | none => none
  | c :: rest =>
    match term (c :: rest) with
    | some (ws, post) => some ([], ws, post)
    | none =>
      match grabGroup term rest with
      | some (g, ws, p) => some (c :: g, ws, p)
      | none => none

/-- re.search with a literal opening tag followed by a lazy group and a
terminator: try every start position left to right; at the first position
where the opening tag matches and the rest admits the terminator, return the
text before the match, the group, and the terminator components. -/
def searchFrag (openTag : List Char)
    (term : List Char → Option (List Char × List Char)) :
    List Char → Option (List Char × List Char × List Char × List Char)
  | [] =>
    match (if openTag.isPrefixOf ([] : List Char) then
        grabGroup term (List.drop openTag.length []) else none) with
    | some (g, ws, p) => some ([], g, ws, p)
    | none => none
  | c :: rest =>
    match (if openTag.isPrefixOf (c :: rest) then
        grabGroup term ((c :: rest).drop openTag.length) else none) with
    | some (g, ws, p) => some ([], g, ws, p)
    | none =>
      match searchFrag openTag term rest with
      | some (pre, g, ws, p) => some (c :: pre, g, ws, p)
      | none => none

/-- extract_tweet_content (server.py lines 41-60): the lazy tweet regex with
re.DOTALL, the body fallback, and the whole input when neither matches. -/
def extract_tweet_content (html_content : String) : String :=
  match searchFrag openTweetTag tweetTerm html_content.data with
  | some (_, g, _, _) => String.mk g
  | none =>
    match searchFrag openBodyTag bodyTerm html_content.data with
    | some (_, g, _, _) => String.mk g
    | none => html_content

/- ――――――――――――――――――――――――――――――――――――――――――――――――――――――――――――――――――――
   Concrete inputs used by closed theorems
   ―――――――――――――――――――――――――――――――――――――――――――――――――――――――――――――――――――― -/

/-- A bookmark with one video media item. -/
def demoTweet : Tweet :=
  { id := "1", text := "hi", created_at := "2024-01-01 00:00:00 UTC",
    author := none,
    media := [{ media_key := "m1", mediaType := "video", url := "http://v" }] }

/-- A network where the video URL answers with a webm content type, so
download_media stores the file under the .webm extension. -/
def demoNet : Net := fun u => if u = "http://v" then some "video/webm" else none

/-- A stored token with an access token and a refresh token but no
expires_at value. -/
def tokenNoExpiry : TokenData :=
  { access_token := some "tok", refresh_token := some "r", expires_at := none }

/-- The spec's three-variant example media object. -/
def exampleVideo : MediaObj :=
  { media_key := "m", mediaType := "video", url := none,
    preview_image_url := some "http://preview",
    variants := [
      ⟨"video/mp4", some 200000, some "http://u200"⟩ ,
      ⟨"video/mp4", some 800000, some "http://u800"⟩ ,
      ⟨"application/x-mpegURL", some 999999, some "http://hls"⟩ ] }

/-- A bookmark with no media and no author. -/
def plainTweet : Tweet :=
  { id := "7", text := "t", created_at := "d", author := none, media := [] }

/-- A bookmark with one photo media item. -/
def photoTweet : Tweet :=
  { id := "1", text := "hi", created_at := "d", author := none,
    media := [{ media_key := "m1", mediaType := "photo", url := "http://p" }] }

/-- A network answering every URL with a png content type. -/
def pngNet : Net := fun _ => some "image/png"

/-- Twenty-five archived artifact filenames. -/
def files25 : List String :=
  (List.range 25).map (fun n => "bookmark_" ++ toString (100 + n) ++ ".html")

/-- A well-formed stored fragment document. -/
def fragDoc : String := "<div class=\"tweet\">X</div><div class=\"backup-info\">end"

/-- A truncated stored document: it opens a body and a tweet container but
was cut before the closing tags, as a crash mid-write can leave it. -/
def truncatedDoc : String := "<body><div class=\"tweet\">truncated"

/- ――――――――――――――――――――――――――――――――――――――――――――――――――――――――――――――――――――
   Auxiliary lemmas
   ―――――――――――――――――――――――――――――――――――――――――――――――――――――――――――――――――――― -/

theorem bestVariant_mem : ∀ (l : List Variant) (v : Variant),
    bestVariant l = some v → v ∈ l
  | [], v => by simp [bestVariant]
  | w :: ws, v => by
    simp only [bestVariant]
    cases h : bestVariant ws with
    | none => intro hv; simp_all
    | some u =>
      have hmem := bestVariant_mem ws u h
      by_cases hgt : bitRateKey u > bitRateKey w <;> simp only [hgt, ite_true,
        ite_false, Option.some.injEq] <;> intro hv <;> subst hv
      · exact List.mem_cons_of_mem _ hmem
      · exact List.mem_cons_self _ _

theorem bestVariant_eq_none : ∀ (l : List Variant), bestVariant l = none ↔ l = []
  | [] => by simp [bestVariant]
  | v :: vs => by
    simp only [bestVariant]
    cases h : bestVariant vs with
    | none => simp
    | some u => by_cases hgt : bitRateKey u > bitRateKey v <;> simp [hgt]

theorem bestVariant_max : ∀ (l : List Variant) (v : Variant),
    bestVariant l = some v → ∀ w ∈ l, bitRateKey w ≤ bitRateKey v
  | [], v => by simp [bestVariant]
  | w :: ws, v => by
    simp only [bestVariant]
    cases h : bestVariant ws with
    | none =>
      have hnil : ws = [] := (bestVariant_eq_none ws).mp h
      subst hnil
      intro hv x hx
      simp_all
    | some u =>
      have hmax := bestVariant_max ws u h
      by_cases hgt : bitRateKey u > bitRateKey w <;> simp only [hgt, if_pos, if_neg,
        ite_true, ite_false, Option.some.injEq] <;> intro hv x hx <;> subst hv <;>
        rcases List.mem_cons.mp hx with rfl | hx
      · omega
      · exact hmax x hx
      · exact le_refl _
      · have := hmax x hx; omega

theorem lexLe_total : ∀ a b : List Char, lexLe a b = true ∨ lexLe b a = true
  | [], _ => Or.inl rfl
  | _ :: _, [] => Or.inr rfl
  | a :: as, b :: bs => by
    by_cases h1 : a.toNat < b.toNat
    · left
      simp [lexLe, h1]
    · by_cases h2 : b.toNat < a.toNat
      · right
        simp [lexLe, h2]
      · rcases lexLe_total as bs with h | h
        · left
          simp [lexLe, h1, h2, h]
        · right
          simp [lexLe, h1, h2, h]

theorem lexLe_trans : ∀ a b c : List Char,
    lexLe a b = true → lexLe b c = true → lexLe a c = true
  | [], _, _ => by
    intro _ _
    rfl
  | _ :: _, [], _ => by
    intro h _
    simp [lexLe] at h
  | _ :: _, _ :: _, [] => by
    intro _ h
    simp [lexLe] at h
  | a :: as, b :: bs, c :: cs => by
    intro h1 h2
    by_cases hab : a.toNat < b.toNat <;> by_cases hbc : b.toNat < c.toNat
    · simp [lexLe, show a.toNat < c.toNat by omega]
    · by_cases hcb : c.toNat < b.toNat
      · simp [lexLe, hbc, hcb] at h2
      · simp [lexLe, show a.toNat < c.toNat by omega]
    · by_cases hba : b.toNat < a.toNat
      · simp [lexLe, hab, hba] at h1
      · simp [lexLe, show a.toNat < c.toNat by omega]
    · by_cases hba : b.toNat < a.toNat
      · simp [lexLe, hab, hba] at h1
      · by_cases hcb : c.toNat < b.toNat
        · simp [lexLe, hbc, hcb] at h2
        · have h1t : lexLe as bs = true := by simpa [lexLe, hab, hba] using h1
          have h2t : lexLe bs cs = true := by simpa [lexLe, hbc, hcb] using h2
          have hrec := lexLe_trans as bs cs h1t h2t
          simp [lexLe, show ¬a.toNat < c.toNat by omega,
            show ¬c.toNat < a.toNat by omega, hrec]

instance : IsTotal String pyStrLe :=
  ⟨fun a b => lexLe_total a.data b.data⟩

instance : IsTrans String pyStrLe :=
  ⟨fun a b c => lexLe_trans a.data b.data c.data⟩

/- ――――――――――――――――――――――――――――――――――――――――――――――――――――――――――――――――――――
   Soundness of the regex model
   ―――――――――――――――――――――――――――――――――――――――――――――――――――――――――――――――――――― -/

theorem isPrefixOf_decomp {l1 l2 : List Char} (h : l1.isPrefixOf l2 = true) :
    l2 = l1 ++ l2.drop l1.length := by
  have := List.isPrefixOf_iff_prefix.mp h
  exact (List.prefix_iff_eq_append.mp this).symm

theorem tweetTerm_sound {l ws p : List Char} (h : tweetTerm l = some (ws, p)) :
    l = closeDivTag ++ (ws ++ (backupInfoTag ++ p)) ∧
      ws.all Char.isWhitespace = true := by
  unfold tweetTerm at h
  by_cases h1 : closeDivTag.isPrefixOf l
  · simp only [h1, if_true] at h
    by_cases h2 : backupInfoTag.isPrefixOf
        ((l.drop closeDivTag.length).dropWhile Char.isWhitespace)
    · simp only [h2, if_true, Option.some.injEq, Prod.mk.injEq] at h
      obtain ⟨hws, hp⟩ := h
      constructor
      · conv_lhs => rw [isPrefixOf_decomp h1]
        congr 1
        conv_lhs =>
          rw [← List.takeWhile_append_dropWhile (p := Char.isWhitespace)
            (l := l.drop closeDivTag.length)]
        rw [hws]
        congr 1
        rw [← hp]
        exact isPrefixOf_decomp h2
      · rw [← hws]; exact List.all_takeWhile
    · simp [h2] at h
  · simp [h1] at h

theorem bodyTerm_sound {l ws p : List Char} (h : bodyTerm l = some (ws, p)) :
    l = closeBodyTag ++ p ∧ ws = [] := by
  unfold bodyTerm at h
  by_cases h1 : closeBodyTag.isPrefixOf l
  · simp only [h1, if_true, Option.some.injEq, Prod.mk.injEq] at h
    obtain ⟨hws, hp⟩ := h
    rw [← hp]
    exact ⟨isPrefixOf_decomp h1, hws.symm⟩
  · simp [h1] at h

theorem grabGroup_sound (term : List Char → Option (List Char × List Char))
    (tcons : List Char → List Char → List Char)
    (hterm : ∀ l ws p, term l = some (ws, p) → l = tcons ws p) :
    ∀ l g ws p, grabGroup term l = some (g, ws, p) → l = g ++ tcons ws p
  | [], g, ws, p => by
    simp only [grabGroup]
    cases h : term [] with
    | none => simp
    | some x =>
      obtain ⟨ws0, p0⟩ := x
      intro hg
      cases hg
      simpa using hterm _ _ _ h
  | c :: rest, g, ws, p => by
    simp only [grabGroup]
    cases h : term (c :: rest) with
    | some x =>
      obtain ⟨ws0, p0⟩ := x
      intro hg
      cases hg
      simpa using hterm _ _ _ h
    | none =>
      cases h2 : grabGroup term rest with
      | none => simp
      | some y =>
        obtain ⟨g0, ws0, p0⟩ := y
        intro hg
        cases hg
        have := grabGroup_sound term tcons hterm rest _ _ _ h2
        simp [this]

theorem grabGroup_term_of (term : List Char → Option (List Char × List Char)) :
    ∀ l g ws p, grabGroup term l = some (g, ws, p) →
      ∃ l2, term l2 = some (ws, p)
  | [], g, ws, p => by
    simp only [grabGroup]
    cases h : term [] with
    | none => simp
    | some x =>
      obtain ⟨ws0, p0⟩ := x
      intro hg
      cases hg
      exact ⟨[], h⟩
  | c :: rest, g, ws, p => by
    simp only [grabGroup]
    cases h : term (c :: rest) with
    | some x =>
      obtain ⟨ws0, p0⟩ := x
      intro hg
      cases hg
      exact ⟨c :: rest, h⟩
    | none =>
      cases h2 : grabGroup term rest with
      | none => simp
      | some y =>
        obtain ⟨g0, ws0, p0⟩ := y
        intro hg
        cases hg
        exact grabGroup_term_of term rest _ _ _ h2

theorem searchFrag_sound (openTag : List Char)
    (term : List Char → Option (List Char × List Char))
    (tcons : List Char → List Char → List Char)
    (hterm : ∀ l ws p, term l = some (ws, p) → l = tcons ws p) :
    ∀ l pre g ws p, searchFrag openTag term l = some (pre, g, ws, p) →
      l = pre ++ (openTag ++ (g ++ tcons ws p))
  | [], pre, g, ws, p => by
    simp only [searchFrag]
    by_cases h1 : openTag.isPrefixOf ([] : List Char)
    · simp only [h1, if_true]
      cases h2 : grabGroup term (List.drop openTag.length []) with
      | none => simp
      | some y =>
        obtain ⟨g0, ws0, p0⟩ := y
        intro hg
        cases hg
        have hopen : openTag = [] :=
          List.prefix_nil.mp (List.isPrefixOf_iff_prefix.mp h1)
        have := grabGroup_sound term tcons hterm _ _ _ _ h2
        simp only [List.drop_nil] at this
        simp [hopen, ← this]
    · simp [h1]
  | c :: rest, pre, g, ws, p => by
    simp only [searchFrag]
    by_cases h1 : openTag.isPrefixOf (c :: rest)
    · simp only [h1, if_true]
      cases h2 : grabGroup term ((c :: rest).drop openTag.length) with
      | none =>
        cases h3 : searchFrag openTag term rest with
        | none => simp
        | some y =>
          obtain ⟨pre0, g0, ws0, p0⟩ := y
          intro hg
          cases hg
          have := searchFrag_sound openTag term tcons hterm rest _ _ _ _ h3
          simp [this]
      | some y =>
        obtain ⟨g0, ws0, p0⟩ := y
        intro hg
        cases hg
        have := grabGroup_sound term tcons hterm _ _ _ _ h2
        conv_lhs => rw [isPrefixOf_decomp h1]
        rw [← this]
        simp
    · simp only [h1, if_false]
      cases h3 : searchFrag openTag term rest with
      | none => simp
      | some y =>
        obtain ⟨pre0, g0, ws0, p0⟩ := y
        intro hg
        cases hg
        have := searchFrag_sound openTag term tcons hterm rest _ _ _ _ h3
        simp [this]

theorem searchFrag_term_of (openTag : List Char)
    (term : List Char → Option (List Char × List Char)) :
    ∀ l pre g ws p, searchFrag openTag term l = some (pre, g, ws, p) →
      ∃ l2, term l2 = some (ws, p)
  | [], pre, g, ws, p => by
    simp only [searchFrag]
    by_cases h1 : openTag.isPrefixOf ([] : List Char)
    · simp only [h1, if_true]
      cases h2 : grabGroup term (List.drop openTag.length []) with
      | none => simp
      | some y =>
        obtain ⟨g0, ws0, p0⟩ := y
        intro hg
        cases hg
        exact grabGroup_term_of term _ _ _ _ h2
    · simp [h1]
  | c :: rest, pre, g, ws, p => by
    simp only [searchFrag]
    by_cases h1 : openTag.isPrefixOf (c :: rest)
    · simp only [h1, if_true]
      cases h2 : grabGroup term ((c :: rest).drop openTag.length) with
      | none =>
        cases h3 : searchFrag openTag term rest with
        | none => simp
        | some y =>
          obtain ⟨pre0, g0, ws0, p0⟩ := y
          intro hg
          cases hg
          exact searchFrag_term_of openTag term rest _ _ _ _ h3
      | some y =>
        obtain ⟨g0, ws0, p0⟩ := y
        intro hg
        cases hg
        exact grabGroup_term_of term _ _ _ _ h2
    · simp only [h1, if_false]
      cases h3 : searchFrag openTag term rest with
      | none => simp
      | some y =>
        obtain ⟨pre0, g0, ws0, p0⟩ := y
        intro hg
        cases hg
        exact searchFrag_term_of openTag term rest _ _ _ _ h3

/- ――――――――――――――――――――――――――――――――――――――――――――――――――――――――――――――――――――
   Claim theorems
   ―――――――――――――――――――――――――――――――――――――――――――――――――――――――――――――――――――― -/

/-- C4: the renderer never escapes or interpolates anything, because
Template(template_str) raises TemplateSyntaxError before any rendering: the
set tag for safe_username is closed by the expression delimiter. So no
canonical record produces any HTML at all, escaped or not. -/
theorem generate_html_never_renders (tweet : Tweet) :
    generate_html tweet = Except.error TemplateError.badStmtDelim := rfl

/-- C3: at now = 1000 with expires_at = 900 the claim requires the token to
count as expired (now is at or past expires_at minus 300, and in fact past
expires_at itself), but is_token_expired returns false: the code subtracts
the 300-second buffer from the current time instead of from the expiry, so a
token is treated as valid until 300 seconds after its expiry. -/
theorem token_expiry_margin_direction :
    is_token_expired 1000
      { access_token := some "tok", refresh_token := none,
        expires_at := some 900 } = false ∧
    (1000 : Int) ≥ 900 - 300 ∧ (1000 : Int) ≥ 900 := by decide

/-- C10: a persisted token without an expires_at value is treated as
expired: is_token_expired returns true, get_oauth2_token never returns its
access token directly, and the outcome is a refresh attempt or the
interactive flow. -/
theorem missing_expiry_forces_reauth (now : Int) (td : TokenData)
    (refreshResult : Option String) (h : td.expires_at = none) :
    is_token_expired now td = true ∧
    (∀ tok, get_oauth2_token_path now (some td) refreshResult ≠
      TokenPath.usedExisting tok) ∧
    ((∃ tok, get_oauth2_token_path now (some td) refreshResult =
        TokenPath.refreshed tok) ∨
      get_oauth2_token_path now (some td) refreshResult =
        TokenPath.interactive) := by
  have hexp : is_token_expired now td = true := by
    unfold is_token_expired
    rw [h]
  refine ⟨hexp, ?_, ?_⟩ <;>
    simp only [get_oauth2_token_path] <;>
    cases td.access_token <;>
    simp [hexp] <;>
    cases td.refresh_token <;>
    simp <;>
    cases refreshResult <;>
    simp

/-- C10 witness: tokenNoExpiry at now = 0 with a succeeding refresh. -/
theorem missing_expiry_forces_reauth_witness :
    is_token_expired 0 tokenNoExpiry = true ∧
    ∀ tok, get_oauth2_token_path 0 (some tokenNoExpiry) (some "newtok") ≠
      TokenPath.usedExisting tok :=
  ⟨(missing_expiry_forces_reauth 0 tokenNoExpiry (some "newtok") rfl).1,
    (missing_expiry_forces_reauth 0 tokenNoExpiry (some "newtok") rfl).2.1⟩

/-- C2: for a video media object the normalizer keeps only variants whose
content type starts with video/; when none remain, the url falls back to the
preview image; when some remain and the stable descending bit-rate sort
selects a variant with a usable url, that url is chosen, the selected
variant is a video variant of the list, and its bit rate is maximal among
the video variants. -/
theorem video_variant_selection (media_obj : MediaObj) :
    (media_obj.variants.filter isVideoContentType = [] →
      select_video_url media_obj = media_obj.preview_image_url) ∧
    (∀ v u, bestVariant (media_obj.variants.filter isVideoContentType) = some v →
      v.url = some u → u ≠ "" →
      select_video_url media_obj = some u ∧
      v ∈ media_obj.variants ∧ isVideoContentType v = true ∧
      ∀ w ∈ media_obj.variants, isVideoContentType w = true →
        bitRateKey w ≤ bitRateKey v) := by
  constructor
  · intro hnil
    simp [select_video_url, hnil, bestVariant]
  · intro v u hv hu hne
    have hmem := bestVariant_mem _ _ hv
    have hmax := bestVariant_max _ _ hv
    refine ⟨?_, ?_, ?_, ?_⟩
    · simp [select_video_url, hv, hu, hne]
    · exact (List.mem_filter.mp hmem).1
    · exact (List.mem_filter.mp hmem).2
    · intro w hw hvid
      exact hmax w (List.mem_filter.mpr ⟨hw, hvid⟩)

/-- C2 witness: the spec's example; the 800000 bit-rate mp4 variant wins and
the non-video x-mpegURL variant is excluded despite its higher bit rate. -/
theorem video_variant_selection_witness :
    select_video_url exampleVideo = some "http://u800" :=
  ((video_variant_selection exampleVideo).2
    ⟨"video/mp4", some 800000, some "http://u800"⟩ "http://u800"
    (by decide) rfl (by decide)).1

/-- C1: the skip on an existing artifact holds (first conjunct), but
idempotence of a second run does not: because the malformed template makes
generate_html raise, bookmark_1.html is never written, so the second run
re-enters the media resolution; and since the video was stored under .webm
while the existence check only looks for .mp4, the second run performs the
same media download and file write again instead of nothing. -/
theorem second_run_repeats_downloads_and_writes :
    (∀ (net : Net) (t : Tweet) (fs : FS), html_file_exists fs t.id = true →
      save_bookmark net t fs = (false, fs, [])) ∧
    backupLoop demoNet [demoTweet] [] =
      (0, ["media/1_m1.webm"],
        [Act.mediaDownload "http://v", Act.fileWrite "media/1_m1.webm"]) ∧
    backupLoop demoNet [demoTweet] ["media/1_m1.webm"] =
      (0, ["media/1_m1.webm", "media/1_m1.webm"],
        [Act.mediaDownload "http://v", Act.fileWrite "media/1_m1.webm"]) := by
  refine ⟨?_, by decide, by decide⟩
  intro net t fs h
  unfold save_bookmark save_bookmark_run
  rw [h]
  rfl

/-- C8: an exception inside the try body of save_bookmark is caught: the
call returns stored=false with the state at the failure point, and the batch
loop continues with the remaining bookmarks exactly as if started from that
state. -/
theorem store_failures_are_contained (net : Net) (t : Tweet) (fs fsE : FS)
    (actsE : List Act) (h : save_bookmark_run net t fs = .error (fsE, actsE)) :
    save_bookmark net t fs = (false, fsE, actsE) ∧
    ∀ rest, backupLoop net (t :: rest) fs =
      ((backupLoop net rest fsE).1, (backupLoop net rest fsE).2.1,
        actsE ++ (backupLoop net rest fsE).2.2) := by
  have h1 : save_bookmark net t fs = (false, fsE, actsE) := by
    unfold save_bookmark
    rw [h]
  refine ⟨h1, fun rest => ?_⟩
  simp only [backupLoop, h1]
  rcases hb : backupLoop net rest fsE with ⟨n, fs2, acts2⟩
  simp

/-- C8 witness: a bookmark with no media on an empty tree; the render step
raises, the call returns stored=false with nothing written. -/
theorem store_failures_are_contained_witness :
    save_bookmark demoNet plainTweet [] = (false, [], []) :=
  (store_failures_are_contained demoNet plainTweet [] [] [] rfl).1

/-- C9 counterexample: with a supplied override batch that is empty, the
orchestrator does fetch (did_fetch = true) and processes the fetched records
instead of the supplied empty batch, because `if not bookmarks` is falsy for
an empty list. -/
theorem empty_override_still_fetches :
    (backup_all_bookmarks demoNet (some []) [demoTweet] []).did_fetch = true ∧
    (backup_all_bookmarks demoNet (some []) [demoTweet] []).processed =
      [demoTweet] := by decide

/-- C9 amended: for every non-empty supplied override batch the orchestrator
performs no fetch and processes exactly the supplied records; an empty or
absent override triggers the fetch. -/
theorem nonempty_override_skips_fetch (net : Net) (b : Tweet) (bs : List Tweet)
    (fetchResult : List Tweet) (fs : FS) :
    (backup_all_bookmarks net (some (b :: bs)) fetchResult fs).did_fetch = false ∧
    (backup_all_bookmarks net (some (b :: bs)) fetchResult fs).processed =
      b :: bs ∧
    (backup_all_bookmarks net none fetchResult fs).did_fetch = true ∧
    (backup_all_bookmarks net (some []) fetchResult fs).did_fetch = true := by
  refine ⟨?_, ?_, ?_, ?_⟩ <;>
    [rcases h : backupLoop net (b :: bs) fs with ⟨n, fs2, acts⟩;
     rcases h : backupLoop net (b :: bs) fs with ⟨n, fs2, acts⟩;
     rcases h : backupLoop net fetchResult fs with ⟨n, fs2, acts⟩;
     rcases h : backupLoop net fetchResult fs with ⟨n, fs2, acts⟩] <;>
    simp [backup_all_bookmarks, h]

/-- C7 counterexample: a photo whose media file exists locally under .png is
not detected (the existence check only tries .jpg for photos), and
save_bookmark re-downloads it instead of reusing the local file. -/
theorem photo_png_not_reused :
    media_file_exists ["media/1_m1.png"] "1" "m1" "photo" = false ∧
    (save_bookmark pngNet photoTweet ["media/1_m1.png"]).2.2.contains
      (Act.mediaDownload "http://p") = true := by decide

/-- C7 amended: reuse happens exactly for the canonical extension of the
type: a photo is reused when <id>_<media_key>.jpg exists and a video when
<id>_<media_key>.mp4 exists, with the url rewritten to the local relative
path and no download or write performed; the six-extension list applies only
to media of other types. -/
theorem media_reuse_canonical_extension (net : Net) (tid mkey u : String)
    (fs : FS) (hjpg : fsHas fs (media_path tid mkey ".jpg") = true) :
    resolveMedia net tid
        [{ media_key := mkey, mediaType := "photo", url := u }] fs =
      ([{ media_key := mkey, mediaType := "photo",
          url := media_path tid mkey ".jpg" }], fs, []) ∧
    (∀ fs2, fsHas fs2 (media_path tid mkey ".mp4") = true →
      resolveMedia net tid
          [{ media_key := mkey, mediaType := "video", url := u }] fs2 =
        ([{ media_key := mkey, mediaType := "video",
            url := media_path tid mkey ".mp4" }], fs2, [])) ∧
    extensions_to_check "photo" = [".jpg"] ∧
    extensions_to_check "video" = [".mp4"] ∧
    extensions_to_check "animated_gif" =
      [".jpg", ".png", ".gif", ".mp4", ".webm", ".mov"] := by
  have hextp : extensions_to_check "photo" = [".jpg"] := rfl
  have hextv : extensions_to_check "video" = [".mp4"] := rfl
  have hmfe : media_file_exists fs tid mkey "photo" = true := by
    simp [media_file_exists, hextp, hjpg]
  have hfind : find_existing_media_file fs tid mkey "photo" =
      some (media_path tid mkey ".jpg") := by
    simp [find_existing_media_file, hextp, List.find?, hjpg]
  refine ⟨?_, fun fs2 h2 => ?_, rfl, rfl, rfl⟩
  · simp [resolveMedia, hmfe, hfind]
  · have hmfe2 : media_file_exists fs2 tid mkey "video" = true := by
      simp [media_file_exists, hextv, h2]
    have hfind2 : find_existing_media_file fs2 tid mkey "video" =
        some (media_path tid mkey ".mp4") := by
      simp [find_existing_media_file, hextv, List.find?, h2]
    simp [resolveMedia, hmfe2, hfind2]

/-- C7 witness: a concrete photo with its .jpg present and a concrete video
with its .mp4 present are both reused without downloads. -/
theorem media_reuse_canonical_extension_witness :
    resolveMedia pngNet "1" [{ media_key := "m1", mediaType := "photo", url := "u" }]
      ["media/1_m1.jpg"] =
      ([{ media_key := "m1", mediaType := "photo", url := "media/1_m1.jpg" }],
        ["media/1_m1.jpg"], []) :=
  (media_reuse_canonical_extension pngNet "1" "m1" "u" ["media/1_m1.jpg"]
    (by decide)).1

/-- C5: for every directory listing and every one-based page, the list
endpoint sorts the bookmark filenames descending, returns the ten-item slice
of that page, reports the total, and sets has_more exactly when the slice's
end index is strictly below the total count; and on twenty-five artifacts
page 1 has ten items with has_more and page 3 has five items without. -/
theorem list_endpoint_pagination :
    (∀ (disk : List String) (p : Nat),
      List.Sorted (fun a b => pyStrLe b a) (get_bookmark_files disk) ∧
      (get_bookmarks_api disk (p + 1)).1 =
        (((get_bookmark_files disk).drop (p * 10)).take 10).map
          (fun fn => (fn, tweet_id_of_filename fn)) ∧
      (get_bookmarks_api disk (p + 1)).2.1 =
        decide (p * 10 + 10 < (get_bookmark_files disk).length) ∧
      (get_bookmarks_api disk (p + 1)).2.2 = (get_bookmark_files disk).length) ∧
    (get_bookmarks_api files25 1).1.length = 10 ∧
    (get_bookmarks_api files25 1).2.1 = true ∧
    (get_bookmarks_api files25 3).1.length = 5 ∧
    (get_bookmarks_api files25 3).2.1 = false := by
  refine ⟨?_, by decide, by decide, by decide, by decide⟩
  intro disk p
  refine ⟨?_, ?_, ?_, ?_⟩
  · have hs := List.sorted_insertionSort pyStrLe
      (disk.filter (fun f => strStartsWith f "bookmark_" && strEndsWith f ".html"))
    unfold get_bookmark_files
    exact List.pairwise_reverse.mpr hs
  · by_cases hnil : get_bookmark_files disk = []
    · simp [get_bookmarks_api, hnil]
    · simp [get_bookmarks_api, hnil]
  · by_cases hnil : get_bookmark_files disk = []
    · simp [get_bookmarks_api, hnil]
    · simp [get_bookmarks_api, hnil]
  · by_cases hnil : get_bookmark_files disk = []
    · simp [get_bookmarks_api, hnil]
    · simp [get_bookmarks_api, hnil]

/-- C6 amended: when the tweet-fragment pattern matches, the content is
exactly the lazily captured fragment between the opening tweet container and
the closing div that is followed by whitespace and the backup-info container;
when it does not match but a body pair does, the content is the body
contents; and the content equals the full document exactly when neither
pattern is found. -/
theorem extract_tweet_content_characterization (html : String) :
    (∀ pre g ws post,
      searchFrag openTweetTag tweetTerm html.data = some (pre, g, ws, post) →
      extract_tweet_content html = String.mk g ∧
      html.data = pre ++ (openTweetTag ++
        (g ++ (closeDivTag ++ (ws ++ (backupInfoTag ++ post))))) ∧
      ws.all Char.isWhitespace = true) ∧
    (searchFrag openTweetTag tweetTerm html.data = none →
      ∀ pre g ws post,
        searchFrag openBodyTag bodyTerm html.data = some (pre, g, ws, post) →
        extract_tweet_content html = String.mk g ∧
        html.data = pre ++ (openBodyTag ++ (g ++ (closeBodyTag ++ post)))) ∧
    (extract_tweet_content html = html ↔
      searchFrag openTweetTag tweetTerm html.data = none ∧
      searchFrag openBodyTag bodyTerm html.data = none) := by
  have tw_sound : ∀ l pre g ws p,
      searchFrag openTweetTag tweetTerm l = some (pre, g, ws, p) →
      l = pre ++ (openTweetTag ++
        (g ++ (closeDivTag ++ (ws ++ (backupInfoTag ++ p))))) :=
    searchFrag_sound openTweetTag tweetTerm
      (fun ws p => closeDivTag ++ (ws ++ (backupInfoTag ++ p)))
      (fun _ _ _ h => (tweetTerm_sound h).1)
  have bd_sound : ∀ l pre g ws p,
      searchFrag openBodyTag bodyTerm l = some (pre, g, ws, p) →
      l = pre ++ (openBodyTag ++ (g ++ (closeBodyTag ++ p))) :=
    searchFrag_sound openBodyTag bodyTerm (fun _ p => closeBodyTag ++ p)
      (fun _ _ _ h => (bodyTerm_sound h).1)
  refine ⟨?_, ?_, ?_⟩
  · intro pre g ws post h
    refine ⟨?_, tw_sound _ _ _ _ _ h, ?_⟩
    · unfold extract_tweet_content
      rw [h]
    · obtain ⟨l2, hl2⟩ := searchFrag_term_of openTweetTag tweetTerm _ _ _ _ _ h
      exact (tweetTerm_sound hl2).2
  · intro hnone pre g ws post h
    refine ⟨?_, bd_sound _ _ _ _ _ h⟩
    unfold extract_tweet_content
    rw [hnone, h]
  · constructor
    · intro heq
      cases h1 : searchFrag openTweetTag tweetTerm html.data with
      | some y =>
        obtain ⟨pre, g, ws, post⟩ := y
        exfalso
        have hx : extract_tweet_content html = String.mk g := by
          unfold extract_tweet_content
          rw [h1]
        have hg : g = html.data := congrArg String.data (hx.symm.trans heq)
        have hd := tw_sound _ _ _ _ _ h1
        rw [hg] at hd
        have hlen := congrArg List.length hd
        have h19 : openTweetTag.length = 19 := rfl
        simp only [List.length_append, h19] at hlen
        omega
      | none =>
        cases h2 : searchFrag openBodyTag bodyTerm html.data with
        | some y =>
          obtain ⟨pre, g, ws, post⟩ := y
          exfalso
          have hx : extract_tweet_content html = String.mk g := by
            unfold extract_tweet_content
            rw [h1, h2]
          have hg : g = html.data := congrArg String.data (hx.symm.trans heq)
          have hd := bd_sound _ _ _ _ _ h2
          rw [hg] at hd
          have hlen := congrArg List.length hd
          have h6 : openBodyTag.length = 6 := rfl
          simp only [List.length_append, h6] at hlen
          omega
        | none => exact ⟨rfl, rfl⟩
    · intro hb
      obtain ⟨h1, h2⟩ := hb
      unfold extract_tweet_content
      rw [h1, h2]

/-- C6 witness: a concrete fragment document; the content is the fragment
between the containers, here the single character X. -/
theorem extract_tweet_content_instance :
    extract_tweet_content fragDoc = "X" :=
  ((extract_tweet_content_characterization fragDoc).1 [] (['X'])
    [] "end".data rfl).1

/-- C6 counterexample: a truncated stored document matches neither the
tweet-fragment pattern nor a closed body pair, and the endpoint returns the
full document, contradicting that the content is never the full document. -/
theorem extract_returns_full_document :
    extract_tweet_content truncatedDoc = truncatedDoc := rfl
